import Mathlib

/-!
# Verification of the `owned-fd` crate (`src/lib.rs`)

A shallow embedding of the single Rust source file `src/lib.rs`, which
provides `OwnedFd` (an RAII owner of a raw file descriptor) and `FdRef`
(a zero-storage borrowed view whose reference address *is* the
descriptor), together with theorems settling the specification's claims.

Modelling decisions, all driven by the source:

* `RawFd` is Rust's `std::os::unix::io::RawFd`, i.e. `c_int` = `i32`.
  We embed it as `Int`; genuine `i32` values satisfy `IsI32`.  The
  `transmute` casts in `FdRef` go through `isize` (64-bit), so the cast
  back `isize as RawFd` truncates two's-complement to 32 bits, embedded
  explicitly as `asI32`.
* The external OS call `libc::dup` is an opaque collaborator.  It is
  embedded as an oracle `OS`: `dupImpl i` is the raw return value of
  `libc::dup(i)` and `errno` is what `io::Error::last_os_error()` would
  carry.  The kernel's view "descriptor `i` refers to resource `r`" is
  the oracle field `res`; the POSIX contract of `dup` (a successful
  result is a previously-unused descriptor referring to the same
  resource) is the predicate `DupContract`, used only as a hypothesis
  where a claim depends on the collaborator's contract.
* Rust's drop semantics: `mem::forget(self)` in `into_raw_fd` prevents
  the destructor from running.  The embedding gives `OwnedFd` an
  `armed` flag (`true` for every handle the constructors build);
  `forget` clears it, and destruction (`OwnedFd.dropRun`) emits the
  `libc::close` call only when the flag is set.
* `.unwrap()` on an `Err` panics.  A Rust function that may panic is
  embedded with result type `CallResult α`: `ok a` for a normal return,
  `panicked e` for a panic carrying the `io::Error` it unwrapped.
-/

/-- Rust `RawFd` (= `c_int` = `i32`), embedded as a mathematical integer. -/
abbrev RawFd := Int

/-- The values an `i32` can actually hold. -/
def IsI32 (x : Int) : Prop := -(2 ^ 31) ≤ x ∧ x < 2 ^ 31

instance (x : Int) : Decidable (IsI32 x) := by
  unfold IsI32; infer_instance

/-- Two's-complement truncation of a 64-bit (`isize`) value to `i32`,
the meaning of Rust's `as RawFd` cast in `FdRef::as_raw_fd`. -/
def asI32 (x : Int) : Int := (x + 2 ^ 31) % 2 ^ 32 - 2 ^ 31

/-- Rust `std::io::Error` as produced by `io::Error::last_os_error()`:
a typed OS-level error carrying the platform's last error code. -/
structure IoError where
  code : Int
deriving DecidableEq, Repr

/-- The opaque OS collaborator behind `libc::dup`.  `dupImpl i` is the
raw `c_int` returned by `libc::dup(i)`; `errno` is the platform's
last-error code at that point; `res i` is the kernel object (if any)
that descriptor `i` refers to once the call has completed. -/
structure OS where
  dupImpl : RawFd → Int
  errno : Int
  res : RawFd → Option Nat

/-- The POSIX contract of the `dup` system call (spec §6: an external
collaborator "producing a new, independent identifier referencing the
same underlying resource").  A successful `dup` of an open descriptor
returns a *different* descriptor (POSIX: the lowest unused one) that
refers to the same kernel object. -/
structure DupContract (os : OS) : Prop where
  fresh : ∀ i : RawFd, (os.res i).isSome → 0 ≤ os.dupImpl i → os.dupImpl i ≠ i
  sameRes : ∀ i : RawFd, (os.res i).isSome → 0 ≤ os.dupImpl i →
    os.res (os.dupImpl i) = os.res i

/-- `unsafe fn dup(i: RawFd) -> io::Result<RawFd>`: call `libc::dup`,
map a negative return to `Err(io::Error::last_os_error())`, otherwise
return the new descriptor. -/
def dup (os : OS) (i : RawFd) : Except IoError RawFd :=
  let v := os.dupImpl i
  if v < 0 then .error ⟨os.errno⟩ else .ok v

/-- Result of running a Rust function that may panic: `ok` is a normal
return, `panicked` records the `io::Error` that `.unwrap()` found. -/
inductive CallResult (α : Type) where
  | ok : α → CallResult α
  | panicked : IoError → CallResult α
deriving DecidableEq, Repr

/-- `Result::unwrap()`: return the value or panic with the error. -/
def unwrap {α : Type} : Except IoError α → CallResult α
  | .ok a => .ok a
  | .error e => .panicked e

/-- `pub struct OwnedFd { inner: RawFd }`.  The extra `armed` flag is
the embedding of Rust drop semantics: it is `true` for every handle a
constructor returns and cleared only by `mem::forget` inside
`into_raw_fd`; the destructor runs exactly when it is set. -/
structure OwnedFd where
  inner : RawFd
  armed : Bool
deriving DecidableEq, Repr

/-- `AsRawFd for OwnedFd`: `fn as_raw_fd(&self) -> RawFd { self.inner }`. -/
def OwnedFd.as_raw_fd (h : OwnedFd) : RawFd := h.inner

/-- `OwnedFd::from_unowned_raw(i)`: `Ok(OwnedFd { inner: try!(dup(i)) })`. -/
def OwnedFd.from_unowned_raw (os : OS) (i : RawFd) : Except IoError OwnedFd :=
  (dup os i).map (fun v => { inner := v, armed := true })

/-- `OwnedFd::dup(&self)`: `from_unowned_raw(self.as_raw_fd())`. -/
def OwnedFd.dup (os : OS) (h : OwnedFd) : Except IoError OwnedFd :=
  OwnedFd.from_unowned_raw os h.as_raw_fd

/-- A collaborator type `T: IntoRawFd`: its one-shot
`into_raw_fd(self) -> RawFd` operation. -/
structure IntoRawFdImpl (T : Type) where
  into_raw_fd : T → RawFd

/-- `OwnedFd::from<T: IntoRawFd>(i)`: `OwnedFd { inner: i.into_raw_fd() }`. -/
def OwnedFd.from {T : Type} (inst : IntoRawFdImpl T) (i : T) : OwnedFd :=
  { inner := inst.into_raw_fd i, armed := true }

/-- `IntoRawFd for OwnedFd`: `let v = self.inner; forget(self); v`.
Returns the raw descriptor together with the forgotten (disarmed)
handle whose destructor will no longer run. -/
def OwnedFd.into_raw_fd (h : OwnedFd) : RawFd × OwnedFd :=
  (h.inner, { h with armed := false })

/-- `FromRawFd for OwnedFd`: `OwnedFd { inner: fd }`. -/
def OwnedFd.from_raw_fd (fd : RawFd) : OwnedFd :=
  { inner := fd, armed := true }

/-- A record of calls into the OS release primitive. -/
inductive SysEvent where
  | close : RawFd → SysEvent
deriving DecidableEq, Repr

/-- Destruction of an `OwnedFd` value: `Drop::drop` runs
`libc::close(self.inner)` — but only if the value was not disarmed by
`mem::forget`.  Returns the list of release calls made. -/
def OwnedFd.dropRun (h : OwnedFd) : List SysEvent :=
  if h.armed then [.close h.inner] else []

/-- `Clone for OwnedFd`: `self.dup().unwrap()` — panics on error. -/
def OwnedFd.clone (os : OS) (h : OwnedFd) : CallResult OwnedFd :=
  unwrap (h.dup os)

/-- A value of Rust type `&FdRef`: since `FdRef` is a zero-sized type,
the reference *is* its address, and `FdRef::from_unowned_raw` stores
the descriptor in that address.  `addr` is the `isize` bit pattern. -/
structure FdRefRef where
  addr : Int
deriving DecidableEq, Repr

/-- `FdRef::from_unowned_raw(i)`: `transmute(i as isize)`.  The cast
`i32 as isize` is sign extension, value-preserving, so the address is
`i` itself. -/
def FdRef.from_unowned_raw (i : RawFd) : FdRefRef := ⟨i⟩

/-- `AsRawFd for FdRef`: `let i: isize = transmute(self); i as RawFd`.
The cast `isize as RawFd` truncates to 32 bits. -/
def FdRefRef.as_raw_fd (r : FdRefRef) : RawFd := asI32 r.addr

/-- `Borrow<FdRef> for OwnedFd`:
`FdRef::from_unowned_raw(self.as_raw_fd())`. -/
def OwnedFd.borrow (h : OwnedFd) : FdRefRef :=
  FdRef.from_unowned_raw h.as_raw_fd

/-- `Deref for OwnedFd`: `self.borrow()`. -/
def OwnedFd.deref (h : OwnedFd) : FdRefRef := h.borrow

/-- `ToOwned for FdRef`:
`OwnedFd::from_unowned_raw(self.as_raw_fd()).unwrap()` — panics on
error. -/
def FdRefRef.to_owned (os : OS) (r : FdRefRef) : CallResult OwnedFd :=
  unwrap (OwnedFd.from_unowned_raw os r.as_raw_fd)

/-- Truncation to `i32` is the identity on genuine `i32` values. -/
theorem asI32_of_isI32 {x : Int} (h : IsI32 x) : asI32 x = x := by
  unfold asI32
  obtain ⟨h1, h2⟩ := h
  omega

/-- A concrete OS oracle on which every `libc::dup` call fails with
`EMFILE` (error code 24), modelling resource-table exhaustion. -/
def osFail : OS :=
  { dupImpl := fun _ => -1, errno := 24, res := fun _ => none }

/-- A concrete OS oracle on which descriptor 3 is open (resource 5),
`libc::dup(3)` succeeds returning the fresh descriptor 4, and every
other `dup` call fails. -/
def osOk : OS :=
  { dupImpl := fun i => if i = 3 then 4 else -1
    errno := 24
    res := fun i => if i = 3 ∨ i = 4 then some 5 else none }

/-- `osOk` satisfies the POSIX `dup` contract. -/
theorem osOk_contract : DupContract osOk := by
  constructor
  · intro i _ hle
    by_cases hi : i = 3 <;> simp [osOk, hi] at hle ⊢
  · intro i _ hle
    by_cases hi : i = 3 <;> simp [osOk, hi] at hle ⊢

/-- Claim C1: for every Owning Handle `h`, `into_raw_fd` yields exactly
`h`'s identifier, and destroying the relinquished handle performs no
release call (no double-release): `mem::forget` disarms the destructor. -/
theorem into_raw_fd_relinquishes (h : OwnedFd) :
    (h.into_raw_fd).1 = h.as_raw_fd ∧
    OwnedFd.dropRun (h.into_raw_fd).2 = [] := by
  constructor
  · rfl
  · simp [OwnedFd.into_raw_fd, OwnedFd.dropRun]

/-- Claim C2: for every Owning Handle whose identifier is a genuine
`i32` value (which every `RawFd` is, including the boundary values `0`
and `i32::MAX`), deriving a Borrowed View (`borrow`) and observing its
identifier (`FdRef::as_raw_fd`) returns exactly the handle's own
identifier: the `transmute` round-trip through `isize` is lossless. -/
theorem borrow_round_trip (h : OwnedFd) (hi : IsI32 h.inner) :
    (h.borrow).as_raw_fd = h.as_raw_fd := by
  simp only [OwnedFd.borrow, FdRef.from_unowned_raw, FdRefRef.as_raw_fd,
    OwnedFd.as_raw_fd]
  exact asI32_of_isI32 hi

/-- Claim C2, witness: the round-trip at the boundary identifiers `0`
and `i32::MAX = 2147483647`. -/
theorem borrow_round_trip_witness :
    (OwnedFd.from_raw_fd 2147483647).borrow.as_raw_fd = 2147483647 ∧
    (OwnedFd.from_raw_fd 0).borrow.as_raw_fd = 0 :=
  ⟨borrow_round_trip (OwnedFd.from_raw_fd 2147483647) (by constructor <;> norm_num [OwnedFd.from_raw_fd]),
   borrow_round_trip (OwnedFd.from_raw_fd 0) (by constructor <;> norm_num [OwnedFd.from_raw_fd])⟩

/-- Claim C4: the duplication primitive `dup` returns an error exactly
when `libc::dup` signals failure (negative return), and that error is
the typed OS error carrying the platform's last error code; on success
it returns the new identifier produced by the call.  (`dup` is pure on
the embedding's side: no other state is touched.) -/
theorem dup_error_iff (os : OS) (i : RawFd) :
    (∀ e, dup os i = .error e ↔ (os.dupImpl i < 0 ∧ e = ⟨os.errno⟩)) ∧
    (0 ≤ os.dupImpl i → dup os i = .ok (os.dupImpl i)) := by
  constructor
  · intro e
    by_cases hlt : os.dupImpl i < 0
    · rw [show dup os i = .error ⟨os.errno⟩ from by simp [dup, hlt]]
      simp [hlt, eq_comm]
    · rw [show dup os i = .ok (os.dupImpl i) from by simp [dup, hlt]]
      simp [hlt]
  · intro hle
    simp [dup, show ¬ os.dupImpl i < 0 from not_lt.mpr hle]

/-- Claim C4, witness: on `osOk`, `dup 3` succeeds with the new
identifier `4`; on `osFail`, `dup 3` fails with error code 24. -/
theorem dup_error_iff_witness :
    dup osOk 3 = .ok 4 ∧ dup osFail 3 = .error ⟨24⟩ :=
  ⟨by simpa [osOk] using (dup_error_iff osOk 3).2 (by norm_num [osOk]),
   ((dup_error_iff osFail 3).1 ⟨24⟩).mpr ⟨by norm_num [osFail], rfl⟩⟩

/-- Claim C5: for every raw identifier `i`, `from_raw_fd i` followed by
`as_raw_fd` returns exactly `i`; the constructor stores the identifier
directly and consults no OS oracle (no duplication is performed). -/
theorem from_raw_fd_round_trip (i : RawFd) :
    (OwnedFd.from_raw_fd i).as_raw_fd = i := rfl

/-- Claim C3, counterexample: on an OS where every duplication fails
with error code 24, `FdRef::to_owned` does *not* return the typed OS
error to its immediate caller — its `.unwrap()` panics with it — even
though the fallible duplication constructor `from_unowned_raw`, applied
to the same observed identifier, does return that error.  The contract
of `to_owned` therefore differs from the fallible constructor's. -/
theorem to_owned_panic_cex :
    FdRefRef.to_owned osFail (FdRef.from_unowned_raw 3) = .panicked ⟨24⟩ ∧
    OwnedFd.from_unowned_raw osFail ((FdRef.from_unowned_raw 3).as_raw_fd) =
      .error ⟨24⟩ := by
  constructor <;> rfl

/-- Claim C3 as amended: `to_owned` delegates to the duplication
primitive on the observed identifier and has the same *success*
contract as the fallible constructor, but on OS failure it panics with
the typed OS error (like the infallible `Clone`), rather than
returning it to the immediate caller. -/
theorem to_owned_delegates (os : OS) (r : FdRefRef) :
    (∀ v, dup os r.as_raw_fd = .ok v →
      r.to_owned os = .ok { inner := v, armed := true }) ∧
    (∀ e, dup os r.as_raw_fd = .error e → r.to_owned os = .panicked e) := by
  constructor
  · intro v hv
    simp [FdRefRef.to_owned, OwnedFd.from_unowned_raw, hv, unwrap, Except.map]
  · intro e he
    simp [FdRefRef.to_owned, OwnedFd.from_unowned_raw, he, unwrap, Except.map]

/-- Claim C3 amended, witness: at descriptor 3 on `osOk` the delegated
duplication succeeds with descriptor 4; at descriptor 5 on `osFail` the
call panics with error code 24. -/
theorem to_owned_delegates_witness :
    FdRefRef.to_owned osOk (FdRef.from_unowned_raw 3) =
      .ok { inner := 4, armed := true } ∧
    FdRefRef.to_owned osFail (FdRef.from_unowned_raw 5) = .panicked ⟨24⟩ :=
  ⟨(to_owned_delegates osOk (FdRef.from_unowned_raw 3)).1 4
      (by norm_num [dup, osOk, FdRef.from_unowned_raw, FdRefRef.as_raw_fd, asI32]),
   (to_owned_delegates osFail (FdRef.from_unowned_raw 5)).2 ⟨24⟩ rfl⟩

/-- Claim C6: under the POSIX `dup` contract, a successful duplication
of an Owning Handle whose descriptor is open yields a handle observing
a *different* identifier, and both identifiers refer to the same
underlying kernel resource. -/
theorem dup_distinct_same_resource (os : OS) (h h' : OwnedFd)
    (hc : DupContract os) (hopen : (os.res h.as_raw_fd).isSome)
    (hs : h.dup os = .ok h') :
    h'.as_raw_fd ≠ h.as_raw_fd ∧ os.res h'.as_raw_fd = os.res h.as_raw_fd := by
  have hle : ¬ os.dupImpl h.inner < 0 := by
    intro hlt
    simp [OwnedFd.dup, OwnedFd.from_unowned_raw, dup, OwnedFd.as_raw_fd, hlt,
      Except.map] at hs
  have hs' : (Except.ok (OwnedFd.mk (os.dupImpl h.inner) true) :
      Except IoError OwnedFd) = Except.ok h' := by
    rw [← hs]
    simp [OwnedFd.dup, OwnedFd.from_unowned_raw, dup, OwnedFd.as_raw_fd, hle,
      Except.map]
  have hh' : h' = { inner := os.dupImpl h.inner, armed := true } :=
    (Except.ok.inj hs').symm
  subst hh'
  exact ⟨hc.fresh h.inner hopen (not_lt.mp hle),
    hc.sameRes h.inner hopen (not_lt.mp hle)⟩

/-- Claim C6, witness: on `osOk`, duplicating the handle for descriptor
3 returns the handle for descriptor 4, distinct from 3 and referring to
the same resource. -/
theorem dup_distinct_same_resource_witness :
    (OwnedFd.from_raw_fd 4).as_raw_fd ≠ (OwnedFd.from_raw_fd 3).as_raw_fd ∧
    osOk.res (OwnedFd.from_raw_fd 4).as_raw_fd =
      osOk.res (OwnedFd.from_raw_fd 3).as_raw_fd :=
  dup_distinct_same_resource osOk (OwnedFd.from_raw_fd 3)
    (OwnedFd.from_raw_fd 4) osOk_contract (by decide) rfl

/-- Claim C7: whenever the duplication primitive fails, `Clone` does
not return a handle: `self.dup().unwrap()` panics carrying the typed
OS error instead of surfacing it. -/
theorem clone_panics_on_failure (os : OS) (h : OwnedFd) (e : IoError)
    (hf : dup os h.as_raw_fd = .error e) :
    h.clone os = .panicked e ∧ ∀ h' : OwnedFd, h.clone os ≠ .ok h' := by
  have hc : h.clone os = .panicked e := by
    simp [OwnedFd.clone, OwnedFd.dup, OwnedFd.from_unowned_raw, hf, unwrap, Except.map]
  refine ⟨hc, fun h' hk => ?_⟩
  rw [hc] at hk
  exact CallResult.noConfusion hk

/-- Claim C7, witness: on `osFail` (every `dup` fails with code 24),
cloning the handle for descriptor 3 panics and returns no handle. -/
theorem clone_panics_on_failure_witness :
    (OwnedFd.from_raw_fd 3).clone osFail = .panicked ⟨24⟩ ∧
    ∀ h', (OwnedFd.from_raw_fd 3).clone osFail ≠ .ok h' :=
  clone_panics_on_failure osFail (OwnedFd.from_raw_fd 3) ⟨24⟩ rfl

/-- Claim C8: construction from an already-owned identifier — both
`from_raw_fd` and the consuming `OwnedFd::from` over an arbitrary
`IntoRawFd` collaborator — and observation via `as_raw_fd` are total:
they are plain functions with non-fallible result types that consult no
OS oracle, and on every input they return an (armed) handle holding
exactly the identifier handed over. -/
theorem construction_observation_never_fail {T : Type}
    (inst : IntoRawFdImpl T) (t : T) (i : RawFd) :
    (OwnedFd.from inst t).as_raw_fd = inst.into_raw_fd t ∧
    (OwnedFd.from_raw_fd i).as_raw_fd = i ∧
    (OwnedFd.from inst t).armed = true ∧
    (OwnedFd.from_raw_fd i).armed = true :=
  ⟨rfl, rfl, rfl, rfl⟩

/-- Claim C9: `Deref` delegates to `Borrow` — the two Borrowed Views
are identical — and observing the identifier through either view (for
a genuine `i32` identifier) yields exactly the handle's own. -/
theorem deref_eq_borrow (h : OwnedFd) (hi : IsI32 h.inner) :
    h.deref = h.borrow ∧ h.deref.as_raw_fd = h.as_raw_fd ∧
    h.borrow.as_raw_fd = h.as_raw_fd := by
  refine ⟨rfl, ?_, ?_⟩ <;>
  · simp only [OwnedFd.deref, OwnedFd.borrow, FdRef.from_unowned_raw,
      FdRefRef.as_raw_fd, OwnedFd.as_raw_fd]
    exact asI32_of_isI32 hi

/-- Claim C9, witness: both views of the handle for descriptor 7 agree
and observe 7. -/
theorem deref_eq_borrow_witness :
    (OwnedFd.from_raw_fd 7).deref = (OwnedFd.from_raw_fd 7).borrow ∧
    (OwnedFd.from_raw_fd 7).deref.as_raw_fd = (OwnedFd.from_raw_fd 7).as_raw_fd ∧
    (OwnedFd.from_raw_fd 7).borrow.as_raw_fd = (OwnedFd.from_raw_fd 7).as_raw_fd :=
  deref_eq_borrow (OwnedFd.from_raw_fd 7)
    (by constructor <;> norm_num [OwnedFd.from_raw_fd])

/-- Claim C10: cloning an Owning Handle (with a genuine `i32`
identifier) is behaviourally equal to borrowing it and duplicating the
view via `to_owned`: both invoke the duplication primitive on the
handle's observed identifier, and both panic with the OS error when it
fails. -/
theorem clone_eq_borrow_to_owned (os : OS) (h : OwnedFd) (hi : IsI32 h.inner) :
    h.clone os = (h.borrow).to_owned os ∧
    (∀ e, dup os h.as_raw_fd = .error e →
      h.clone os = .panicked e ∧ (h.borrow).to_owned os = .panicked e) := by
  have hfd : (h.borrow).as_raw_fd = h.as_raw_fd := by
    simp only [OwnedFd.borrow, FdRef.from_unowned_raw, FdRefRef.as_raw_fd,
      OwnedFd.as_raw_fd]
    exact asI32_of_isI32 hi
  have he : h.clone os = (h.borrow).to_owned os := by
    simp [OwnedFd.clone, FdRefRef.to_owned, OwnedFd.dup, hfd]
  refine ⟨he, fun e hf => ?_⟩
  have hp : h.clone os = .panicked e := by
    simp [OwnedFd.clone, OwnedFd.dup, OwnedFd.from_unowned_raw, hf, unwrap, Except.map]
  exact ⟨hp, he.symm.trans hp⟩

/-- Claim C10, witness: for the handle of descriptor 3 on `osFail`,
cloning and borrow-then-`to_owned` agree (both panic with code 24). -/
theorem clone_eq_borrow_to_owned_witness :
    (OwnedFd.from_raw_fd 3).clone osFail =
      ((OwnedFd.from_raw_fd 3).borrow).to_owned osFail :=
  (clone_eq_borrow_to_owned osFail (OwnedFd.from_raw_fd 3)
    (by constructor <;> norm_num [OwnedFd.from_raw_fd])).1
